import Mathlib

/-!
# Verification of the Google Drive → HubSpot integration (`src/main.py`)

Shallow embedding of the batch workflow in `main.py`.  The external world
(environment variables, Google Drive API, HubSpot API, wall clock) is modelled
as an explicit `Env` record whose fields determine the outcome of each outbound
call; Python exceptions are modelled as `Except String` results of those
fields.  Every function of the script becomes a pure Lean function returning
its value together with a `Trace`: the ordered list of outbound network calls
issued and log lines printed.  Python truthiness tests (`if not file_content`,
`if p.get('emailAddress')`, `if not emails`, `if not contact_result.results`)
are translated faithfully (empty bytes / empty string / empty list are falsy).
-/

namespace GDriveHub

/-- Bytes of a downloaded file (`io.BytesIO().getvalue()`). -/
abbrev Bytes := List Nat

/-- `EXPORT_FORMATS` constant of `main.py` (lines 86–90): the Google-native
editor MIME types and the format each is exported as. -/
def EXPORT_FORMATS : List (String × String) :=
  [("application/vnd.google-apps.document", "application/pdf"),
   ("application/vnd.google-apps.spreadsheet", "application/pdf"),
   ("application/vnd.google-apps.presentation", "application/pdf")]

/-- Google Drive file metadata, as requested by `files().list(fields="files(id, name, mimeType)")`. -/
structure DriveFile where
  id : String
  name : String
  mimeType : String
  deriving DecidableEq

/-- One sharing grant, as returned by `permissions().list(fields="permissions(emailAddress)")`;
the `emailAddress` key may be absent (`p.get('emailAddress')`). -/
structure Permission where
  emailAddress : Option String
  deriving DecidableEq

/-- A HubSpot contact search result element (only its `id` is read). -/
structure Contact where
  id : String
  deriving DecidableEq

/-- The single equality filter built for the contact search (lines 293–301). -/
structure SearchFilter where
  propertyName : String
  operator : String
  value : String
  deriving DecidableEq

/-- The `options` multipart field of the file upload (lines 198–206),
modelled as its parsed JSON content. -/
structure UploadOptions where
  access : String
  duplicateValidationStrategy : String
  duplicateValidationScope : String
  deriving DecidableEq

/-- The multipart form of the HubSpot file upload (lines 190–207):
`fileName`, the `file` part (name, binary content, content-type),
`folderPath`, and the JSON `options` blob. -/
structure UploadRequest where
  fileName : String
  content : Bytes
  contentType : String
  folderPath : String
  options : UploadOptions
  deriving DecidableEq

/-- The JSON body of the engagement creation call (lines 225–238). -/
structure EngagementRequest where
  active : Bool
  type : String
  timestamp : Nat
  contactIds : List String
  attachmentIds : List String
  body : String
  deriving DecidableEq

/-- An HTTP response as the script consumes it: `status_code`, body `text`,
and the parsed `json()['objects']` id list — `none` models a body whose
parsing/indexing (`json()['objects'][0]['id']`) raises. -/
structure HttpResponse where
  status_code : Nat
  text : String
  objects : Option (List String)
  deriving DecidableEq

/-- An outbound network call of the workflow.  Credential acquisition
(the OAuth consent/refresh flow and discovery-document fetch performed while
building the two API clients) is the spec's external "credential provider"
collaborator and is not a workflow call. -/
inductive NetCall where
  | driveList (folderId : String)
  | driveExport (fileId : String) (mimeType : String)
  | driveGet (fileId : String)
  | drivePerms (fileId : String)
  | hsSearch (filter : SearchFilter)
  | hsUpload (req : UploadRequest)
  | hsEngagement (req : EngagementRequest)
  deriving DecidableEq

/-- An observable event: an outbound call or a printed log line. -/
inductive Event where
  | call (c : NetCall)
  | log (msg : String)
  deriving DecidableEq

abbrev Trace := List Event

/-- The external world: environment variables, the credential provider, and
the response of each remote endpoint to a given request.  A `.error e` result
models the underlying Python call raising an exception rendered as `e`. -/
structure Env where
  credentials_path : Option String
  hubspot_token : Option String
  folder_id : Option String
  acquireCredentials : Except String Unit
  listFiles : String → Except String (List DriveFile)
  exportMedia : String → String → Except String Bytes
  getMedia : String → Except String Bytes
  listPermissions : String → Except String (List Permission)
  searchContacts : SearchFilter → Except String (List Contact)
  postUpload : UploadRequest → Except String HttpResponse
  postEngagement : EngagementRequest → Except String HttpResponse
  now : Nat

/-- `get_google_drive_service` (lines 92–124): fails if
`GOOGLE_CREDENTIALS_PATH` is unset, otherwise delegates to the external
credential provider (token cache / OAuth flow / service build). -/
def get_google_drive_service (env : Env) : Except String Unit :=
  match env.credentials_path with
  | none => .error "GOOGLE_CREDENTIALS_PATH not set in environment variables"
  | some _ => env.acquireCredentials

/-- `get_hubspot_client` (lines 154–165): fails if `HUBSPOT_ACCESS_TOKEN` is
unset, otherwise returns the client. -/
def get_hubspot_client (env : Env) : Except String Unit :=
  match env.hubspot_token with
  | none => .error "HUBSPOT_ACCESS_TOKEN not set in environment variables"
  | some _ => .ok ()

/-- The raw media request of `get_file_content` (lines 135–141): export when
the MIME type is a key of `EXPORT_FORMATS`, raw download otherwise. -/
def media_request (env : Env) (file_id mime_type : String) : Except String Bytes :=
  match EXPORT_FORMATS.lookup mime_type with
  | some fmt => env.exportMedia file_id fmt
  | none => env.getMedia file_id

/-- `get_file_content` (lines 126–152): chooses export vs raw download, runs
the chunked download, and on any exception logs the cause and returns `None`. -/
def get_file_content (env : Env) (file_id mime_type : String) :
    Option Bytes × Trace :=
  match EXPORT_FORMATS.lookup mime_type with
  | some fmt =>
    match env.exportMedia file_id fmt with
    | .ok bs => (some bs, [.call (.driveExport file_id fmt)])
    | .error e =>
      (none, [.call (.driveExport file_id fmt),
              .log ("Error downloading file " ++ file_id ++ ": " ++ e)])
  | none =>
    match env.getMedia file_id with
    | .ok bs => (some bs, [.call (.driveGet file_id)])
    | .error e =>
      (none, [.call (.driveGet file_id),
              .log ("Error downloading file " ++ file_id ++ ": " ++ e)])

/-- The multipart form built at lines 190–207: content-type is
`application/pdf` when `mime_type in EXPORT_FORMATS`, else the original;
fixed folder path `/imported-files`; private access with duplicate
validation disabled. -/
def mk_upload_request (file_name : String) (file_content : Bytes)
    (mime_type : String) : UploadRequest :=
  { fileName := file_name
    content := file_content
    contentType :=
      if (EXPORT_FORMATS.lookup mime_type).isSome then "application/pdf" else mime_type
    folderPath := "/imported-files"
    options :=
      { access := "PRIVATE"
        duplicateValidationStrategy := "NONE"
        duplicateValidationScope := "EXACT_FOLDER" } }

/-- The engagement JSON body built at lines 225–238. -/
def mk_engagement_request (env : Env) (file_name contact_id file_id : String) :
    EngagementRequest :=
  { active := true
    type := "NOTE"
    timestamp := env.now
    contactIds := [contact_id]
    attachmentIds := [file_id]
    body := "File uploaded from Google Drive: " ++ file_name }

/-- `upload_file_to_hubspot` (lines 167–255): uploads the file, extracts
`json()['objects'][0]['id']`, posts the engagement; returns `False` after
logging on a non-200 upload status, a non-200 engagement status, or any
exception (transport error or response-parsing error), `True` otherwise. -/
def upload_file_to_hubspot (env : Env) (file_name : String)
    (file_content : Bytes) (mime_type : String) (contact_id : String) :
    Bool × Trace :=
  let req := mk_upload_request file_name file_content mime_type
  match env.postUpload req with
  | .error e =>
    (false, [.call (.hsUpload req),
             .log ("Failed to upload/associate file: " ++ e)])
  | .ok r =>
    if r.status_code ≠ 200 then
      (false, [.call (.hsUpload req),
               .log ("Failed to upload file: " ++ toString r.status_code),
               .log ("Response: " ++ r.text)])
    else
      match r.objects with
      | some (file_id :: _) =>
        let ereq := mk_engagement_request env file_name contact_id file_id
        match env.postEngagement ereq with
        | .error e =>
          (false, [.call (.hsUpload req), .call (.hsEngagement ereq),
                   .log ("Failed to upload/associate file: " ++ e)])
        | .ok er =>
          if er.status_code ≠ 200 then
            (false, [.call (.hsUpload req), .call (.hsEngagement ereq),
                     .log ("Failed to create engagement: " ++ toString er.status_code),
                     .log ("Response: " ++ er.text)])
          else
            (true, [.call (.hsUpload req), .call (.hsEngagement ereq)])
      | _ =>
        (false, [.call (.hsUpload req),
                 .log "Failed to upload/associate file: response parsing error"])

/-- The contact search filter built at lines 293–301: a single filter group
with one exact-match filter on the `email` property. -/
def contact_filter (email : String) : SearchFilter :=
  { propertyName := "email", operator := "EQ", value := email }

/-- Contact resolution step of `process_file` (lines 293–311): searches by
exact email, yields `none` when the result list is empty (after logging),
else the first result's id; a search exception propagates to the per-email
handler. -/
def resolve_contact (env : Env) (email : String) :
    Except String (Option String) × Trace :=
  let fd := contact_filter email
  match env.searchContacts fd with
  | .error e => (.error e, [.call (.hsSearch fd)])
  | .ok results =>
    match results with
    | [] => (.ok none, [.call (.hsSearch fd),
                        .log ("No HubSpot contact found for email: " ++ email)])
    | c :: _ => (.ok (some c.id), [.call (.hsSearch fd)])

/-- One iteration of the per-email loop of `process_file` (lines 291–329):
resolve the contact; on exception log and continue; on no match continue;
otherwise attach the file and log on success. -/
def process_email (env : Env) (file : DriveFile) (file_content : Bytes)
    (email : String) : Trace :=
  match resolve_contact env email with
  | (.error e, tr) =>
    tr ++ [.log ("HubSpot API error for " ++ email ++ ": " ++ e)]
  | (.ok none, tr) => tr
  | (.ok (some contact_id), tr) =>
    match upload_file_to_hubspot env file.name file_content file.mimeType contact_id with
    | (success, tr2) =>
      tr ++ tr2 ++
        (if success then
          [.log ("Successfully attached " ++ file.name ++ " to contact " ++ email)]
         else [])

/-- Email extraction of `process_file` (lines 284–285): keep each grant's
`emailAddress` when present and truthy (non-empty). -/
def extract_emails (perms : List Permission) : List String :=
  perms.filterMap fun p =>
    match p.emailAddress with
    | some s => if s ≠ "" then some s else none
    | none => none

/-- `process_file` (lines 257–335): download content (falsy ⇒ log + `False`),
list permissions, extract emails (empty ⇒ log + `False`), loop over emails,
return `True`; any exception outside the per-email handler is caught at the
file boundary (log + `False`). -/
def process_file (env : Env) (file : DriveFile) : Bool × Trace :=
  match get_file_content env file.id file.mimeType with
  | (none, tr0) =>
    (false, tr0 ++ [.log ("Failed to get content for file: " ++ file.name)])
  | (some content, tr0) =>
    if content = [] then
      (false, tr0 ++ [.log ("Failed to get content for file: " ++ file.name)])
    else
      match env.listPermissions file.id with
      | .error e =>
        (false, tr0 ++ [.call (.drivePerms file.id),
                        .log ("Error processing file " ++ file.name ++ ": " ++ e)])
      | .ok perms =>
        if extract_emails perms = [] then
          (false, tr0 ++ [.call (.drivePerms file.id),
                          .log ("No shared emails found for file: " ++ file.name)])
        else
          (true, tr0 ++ [.call (.drivePerms file.id)] ++
                 (extract_emails perms).flatMap (process_email env file content))

/-- `main` (lines 337–372): initialise both services, read `GOOGLE_FOLDER_ID`,
list folder files, process each file as an independent task (`asyncio.gather`
over per-file tasks sharing no mutable state) and collect their results; a
fatal error is printed and re-raised. -/
def main_run (env : Env) : Except String (List Bool) × Trace :=
  match get_google_drive_service env with
  | .error e => (.error e, [.log ("Application failed: " ++ e)])
  | .ok _ =>
    match get_hubspot_client env with
    | .error e => (.error e, [.log ("Application failed: " ++ e)])
    | .ok _ =>
      match env.folder_id with
      | none =>
        (.error "GOOGLE_FOLDER_ID not set in environment variables",
         [.log "Application failed: GOOGLE_FOLDER_ID not set in environment variables"])
      | some fid =>
        match env.listFiles fid with
        | .error e =>
          (.error e, [.call (.driveList fid), .log ("Application failed: " ++ e)])
        | .ok files =>
          (.ok (files.map fun f => (process_file env f).1),
           .call (.driveList fid) ::
             .log ("Found " ++ toString files.length ++ " files in Google Drive folder") ::
             files.flatMap fun f => (process_file env f).2)

/-- Is the event an outbound network call? -/
def Event.isCall : Event → Bool
  | .call _ => true
  | .log _ => false

/-- Is the event a log line? -/
def Event.isLog : Event → Bool
  | .log _ => true
  | .call _ => false

/-- Is the event a HubSpot file-upload call? -/
def Event.isUploadCall : Event → Bool
  | .call (.hsUpload _) => true
  | _ => false

/-- Is the event a HubSpot engagement-creation call? -/
def Event.isEngagementCall : Event → Bool
  | .call (.hsEngagement _) => true
  | _ => false

/-- Number of file-upload calls in a trace. -/
def countUploads (tr : Trace) : Nat := tr.countP Event.isUploadCall

/-- Number of engagement-creation calls in a trace. -/
def countEngagements (tr : Trace) : Nat := tr.countP Event.isEngagementCall

/-- Number of outbound network calls in a trace. -/
def countCalls (tr : Trace) : Nat := tr.countP Event.isCall

/-- Is the event a Drive export-media call? -/
def Event.isExportCall : Event → Bool
  | .call (.driveExport _ _) => true
  | _ => false

/-- Is the event a Drive raw get-media call? -/
def Event.isRawGetCall : Event → Bool
  | .call (.driveGet _) => true
  | _ => false

/-- The three Google-native editor MIME types named by the specification. -/
def native_editor_types : List String :=
  ["application/vnd.google-apps.document",
   "application/vnd.google-apps.spreadsheet",
   "application/vnd.google-apps.presentation"]

lemma lookup_export_formats (mime : String) :
    EXPORT_FORMATS.lookup mime =
      if mime ∈ native_editor_types then some "application/pdf" else none := by
  by_cases h1 : mime = "application/vnd.google-apps.document"
  · subst h1; simp [EXPORT_FORMATS, List.lookup, native_editor_types]
  · by_cases h2 : mime = "application/vnd.google-apps.spreadsheet"
    · subst h2; simp [EXPORT_FORMATS, List.lookup, native_editor_types]
    · by_cases h3 : mime = "application/vnd.google-apps.presentation"
      · subst h3; simp [EXPORT_FORMATS, List.lookup, native_editor_types]
      · have b1 : (mime == "application/vnd.google-apps.document") = false :=
          beq_eq_false_iff_ne.mpr h1
        have b2 : (mime == "application/vnd.google-apps.spreadsheet") = false :=
          beq_eq_false_iff_ne.mpr h2
        have b3 : (mime == "application/vnd.google-apps.presentation") = false :=
          beq_eq_false_iff_ne.mpr h3
        simp [EXPORT_FORMATS, List.lookup, native_editor_types, b1, b2, b3, h1, h2, h3]

lemma get_file_content_no_hubspot_calls (env : Env) (fid mime : String) :
    countUploads (get_file_content env fid mime).2 = 0 ∧
    countEngagements (get_file_content env fid mime).2 = 0 := by
  unfold get_file_content
  rcases hlk : EXPORT_FORMATS.lookup mime with _ | fmt
  · rcases hx : env.getMedia fid with e | bs <;>
      simp [hx, countUploads, countEngagements, Event.isUploadCall, Event.isEngagementCall]
  · rcases hx : env.exportMedia fid fmt with e | bs <;>
      simp [hx, countUploads, countEngagements, Event.isUploadCall, Event.isEngagementCall]

/-- A Drive file used by the concrete witness environments. -/
def testFile : DriveFile :=
  { id := "f1", name := "report", mimeType := "application/vnd.google-apps.spreadsheet" }

/-- A fully healthy environment: every configuration value present, every
remote call succeeding. -/
def baseEnv : Env where
  credentials_path := some "creds.json"
  hubspot_token := some "tok"
  folder_id := some "folder1"
  acquireCredentials := .ok ()
  listFiles := fun _ => .ok [testFile]
  exportMedia := fun _ _ => .ok [1, 2, 3]
  getMedia := fun _ => .ok [7]
  listPermissions := fun _ => .ok [{ emailAddress := some "a@x.com" }]
  searchContacts := fun _ => .ok [{ id := "101" }]
  postUpload := fun _ => .ok { status_code := 200, text := "ok", objects := some ["fid9"] }
  postEngagement := fun _ => .ok { status_code := 200, text := "ok", objects := none }
  now := 1000

/-- `baseEnv` with `GOOGLE_FOLDER_ID` unset. -/
def envNoFolder : Env := { baseEnv with folder_id := none }

/-- `baseEnv` whose upload endpoint answers HTTP 500. -/
def envUpload500 : Env :=
  { baseEnv with
      postUpload := fun _ => .ok { status_code := 500, text := "boom", objects := none } }

/-- `baseEnv` whose Drive media endpoints always raise a transport error. -/
def envDownloadFail : Env :=
  { baseEnv with
      exportMedia := fun _ _ => .error "socket timeout"
      getMedia := fun _ => .error "socket timeout" }

/-- `baseEnv` whose contact search finds nobody. -/
def envNoContact : Env := { baseEnv with searchContacts := fun _ => .ok [] }

/-- `baseEnv` whose permission listing carries no email addresses. -/
def envNoEmails : Env :=
  { baseEnv with listPermissions := fun _ => .ok [{ emailAddress := none }] }

/-- C1: if any of the three required configuration settings
(`GOOGLE_CREDENTIALS_PATH`, `HUBSPOT_ACCESS_TOKEN`, `GOOGLE_FOLDER_ID`) is
absent, the run terminates with an error, no workflow outbound network call
is issued, and — whenever the external credential provider itself does not
fail first — the error descriptively names the missing setting. -/
theorem config_missing_aborts_before_outbound (env : Env)
    (h : env.credentials_path = none ∨ env.hubspot_token = none ∨
         env.folder_id = none) :
    (∃ e, (main_run env).1 = .error e) ∧
    countCalls (main_run env).2 = 0 ∧
    (env.acquireCredentials = .ok () →
      (main_run env).1 = .error "GOOGLE_CREDENTIALS_PATH not set in environment variables" ∨
      (main_run env).1 = .error "HUBSPOT_ACCESS_TOKEN not set in environment variables" ∨
      (main_run env).1 = .error "GOOGLE_FOLDER_ID not set in environment variables") := by
  unfold main_run get_google_drive_service get_hubspot_client
  rcases hcp : env.credentials_path with _ | cp <;>
    rcases hac : env.acquireCredentials with e | u <;>
      rcases hht : env.hubspot_token with _ | tok <;>
        rcases hfid : env.folder_id with _ | fid <;>
          simp_all [countCalls, Event.isCall]

/-- Witness for C1 at the concrete environment `envNoFolder`. -/
theorem config_missing_aborts_before_outbound_witness :
    (envNoFolder.credentials_path = none ∨ envNoFolder.hubspot_token = none ∨
     envNoFolder.folder_id = none) ∧
    ((∃ e, (main_run envNoFolder).1 = .error e) ∧
     countCalls (main_run envNoFolder).2 = 0 ∧
     (envNoFolder.acquireCredentials = .ok () →
       (main_run envNoFolder).1 = .error "GOOGLE_CREDENTIALS_PATH not set in environment variables" ∨
       (main_run envNoFolder).1 = .error "HUBSPOT_ACCESS_TOKEN not set in environment variables" ∨
       (main_run envNoFolder).1 = .error "GOOGLE_FOLDER_ID not set in environment variables")) :=
  ⟨Or.inr (Or.inr rfl),
   config_missing_aborts_before_outbound envNoFolder (Or.inr (Or.inr rfl))⟩

/-- C7: content download issues an export call exactly when the file's
mimeType is one of the three native-editor types, issues a raw download call
exactly otherwise, and every export call it issues requests PDF. -/
theorem download_exports_pdf_iff_native (env : Env) (fid mime : String) :
    ((get_file_content env fid mime).2.any Event.isExportCall = true ↔
      mime ∈ native_editor_types) ∧
    ((get_file_content env fid mime).2.any Event.isRawGetCall = true ↔
      mime ∉ native_editor_types) ∧
    (∀ f fmt, Event.call (.driveExport f fmt) ∈ (get_file_content env fid mime).2 →
      f = fid ∧ fmt = "application/pdf") := by
  have hl := lookup_export_formats mime
  by_cases hm : mime ∈ native_editor_types
  · rw [if_pos hm] at hl
    unfold get_file_content
    rw [hl]
    rcases hx : env.exportMedia fid "application/pdf" with e | bs <;>
      simp [hx, hm, Event.isExportCall, Event.isRawGetCall]
  · rw [if_neg hm] at hl
    unfold get_file_content
    rw [hl]
    rcases hx : env.getMedia fid with e | bs <;>
      simp [hx, hm, Event.isExportCall, Event.isRawGetCall]

/-- Witness for C7 at the concrete native-editor MIME type of `testFile`. -/
theorem download_exports_pdf_iff_native_witness :
    ((get_file_content baseEnv "f1" "application/vnd.google-apps.spreadsheet").2.any
        Event.isExportCall = true ↔
      "application/vnd.google-apps.spreadsheet" ∈ native_editor_types) ∧
    ((get_file_content baseEnv "f1" "application/vnd.google-apps.spreadsheet").2.any
        Event.isRawGetCall = true ↔
      "application/vnd.google-apps.spreadsheet" ∉ native_editor_types) ∧
    (∀ f fmt,
      Event.call (.driveExport f fmt) ∈
        (get_file_content baseEnv "f1" "application/vnd.google-apps.spreadsheet").2 →
      f = "f1" ∧ fmt = "application/pdf") :=
  download_exports_pdf_iff_native baseEnv "f1" "application/vnd.google-apps.spreadsheet"

lemma main_run_ok (env : Env) (cp tok fid : String) (files : List DriveFile)
    (h1 : env.credentials_path = some cp) (h2 : env.hubspot_token = some tok)
    (h3 : env.acquireCredentials = .ok ()) (h4 : env.folder_id = some fid)
    (h5 : env.listFiles fid = .ok files) :
    (main_run env).1 = .ok (files.map fun f => (process_file env f).1) := by
  simp [main_run, get_google_drive_service, get_hubspot_client, h1, h2, h3, h4, h5]

lemma get_file_content_fst_of_media_error (env : Env) (fid mime e : String)
    (h : media_request env fid mime = .error e) :
    (get_file_content env fid mime).1 = none := by
  unfold media_request at h
  unfold get_file_content
  rcases hlk : EXPORT_FORMATS.lookup mime with _ | fmt <;> rw [hlk] at h <;>
    simp only [] at h <;> simp [h]

lemma process_file_of_no_content (env : Env) (file : DriveFile)
    (h : (get_file_content env file.id file.mimeType).1 = none) :
    process_file env file =
      (false, (get_file_content env file.id file.mimeType).2 ++
              [.log ("Failed to get content for file: " ++ file.name)]) := by
  unfold process_file
  rcases hgc : get_file_content env file.id file.mimeType with ⟨c, tr0⟩
  rw [hgc] at h
  simp only at h
  subst h
  rfl

/-- C2: a transport error during content download makes `get_file_content`
return `None` instead of raising; the file then yields no upload and no
engagement call, its processing unit reports failure, and the run as a whole
still completes normally (no exception escapes). -/
theorem download_error_soft_fails (env : Env) (file : DriveFile) (e : String)
    (h : media_request env file.id file.mimeType = .error e) :
    (get_file_content env file.id file.mimeType).1 = none ∧
    (process_file env file).1 = false ∧
    countUploads (process_file env file).2 = 0 ∧
    countEngagements (process_file env file).2 = 0 ∧
    (∀ cp tok fid files,
      env.credentials_path = some cp → env.hubspot_token = some tok →
      env.acquireCredentials = .ok () → env.folder_id = some fid →
      env.listFiles fid = .ok files →
      ∃ rs, (main_run env).1 = .ok rs) := by
  have hnone := get_file_content_fst_of_media_error env file.id file.mimeType e h
  have hpf := process_file_of_no_content env file hnone
  have hno := get_file_content_no_hubspot_calls env file.id file.mimeType
  refine ⟨hnone, by rw [hpf], ?_, ?_, ?_⟩
  · rw [hpf]
    have h1 := hno.1
    simp only [countUploads, List.countP_append] at h1 ⊢
    simp [h1, Event.isUploadCall]
  · rw [hpf]
    have h2 := hno.2
    simp only [countEngagements, List.countP_append] at h2 ⊢
    simp [h2, Event.isEngagementCall]
  · intro cp tok fid files h1 h2 h3 h4 h5
    exact ⟨_, main_run_ok env cp tok fid files h1 h2 h3 h4 h5⟩

/-- Witness for C2 at the concrete environment `envDownloadFail`. -/
theorem download_error_soft_fails_witness :
    media_request envDownloadFail testFile.id testFile.mimeType = .error "socket timeout" ∧
    ((get_file_content envDownloadFail testFile.id testFile.mimeType).1 = none ∧
     (process_file envDownloadFail testFile).1 = false ∧
     countUploads (process_file envDownloadFail testFile).2 = 0 ∧
     countEngagements (process_file envDownloadFail testFile).2 = 0 ∧
     (∀ cp tok fid files,
       envDownloadFail.credentials_path = some cp →
       envDownloadFail.hubspot_token = some tok →
       envDownloadFail.acquireCredentials = .ok () →
       envDownloadFail.folder_id = some fid →
       envDownloadFail.listFiles fid = .ok files →
       ∃ rs, (main_run envDownloadFail).1 = .ok rs)) :=
  ⟨rfl, download_error_soft_fails envDownloadFail testFile "socket timeout" rfl⟩

/-- C3: contact resolution searches with a single exact-match (`EQ`) filter on
the `email` property whose value is the email itself, and yields the first
returned result's id when any results exist, `none` otherwise. -/
theorem contact_resolution_first_match (env : Env) (email : String)
    (results : List Contact)
    (h : env.searchContacts (contact_filter email) = .ok results) :
    (contact_filter email).propertyName = "email" ∧
    (contact_filter email).operator = "EQ" ∧
    (contact_filter email).value = email ∧
    (resolve_contact env email).1 = .ok (results.head?.map Contact.id) ∧
    Event.call (.hsSearch (contact_filter email)) ∈ (resolve_contact env email).2 := by
  refine ⟨rfl, rfl, rfl, ?_, ?_⟩
  · cases results <;> simp [resolve_contact, h]
  · cases results <;> simp [resolve_contact, h]

/-- `baseEnv` whose contact search returns two matches for every query. -/
def envTwoMatches : Env :=
  { baseEnv with searchContacts := fun _ => .ok [{ id := "101" }, { id := "202" }] }

/-- Witness for C3: two matches exist and the first one wins. -/
theorem contact_resolution_first_match_witness :
    envTwoMatches.searchContacts (contact_filter "a@x.com") =
      .ok [{ id := "101" }, { id := "202" }] ∧
    ((contact_filter "a@x.com").propertyName = "email" ∧
     (contact_filter "a@x.com").operator = "EQ" ∧
     (contact_filter "a@x.com").value = "a@x.com" ∧
     (resolve_contact envTwoMatches "a@x.com").1 =
       .ok (([{ id := "101" }, { id := "202" }] : List Contact).head?.map Contact.id) ∧
     Event.call (.hsSearch (contact_filter "a@x.com")) ∈
       (resolve_contact envTwoMatches "a@x.com").2) :=
  ⟨rfl, contact_resolution_first_match envTwoMatches "a@x.com"
    [{ id := "101" }, { id := "202" }] rfl⟩

/-- C9: a non-200 upload response makes the upload step fail: the composed
operation returns `False`, the logged failure carries the HTTP status code and
the response body, and no engagement call is issued. -/
theorem upload_non200_fails_with_status_and_body (env : Env)
    (file_name : String) (file_content : Bytes) (mime_type contact_id : String)
    (r : HttpResponse)
    (hpost : env.postUpload (mk_upload_request file_name file_content mime_type) = .ok r)
    (hstatus : r.status_code ≠ 200) :
    (upload_file_to_hubspot env file_name file_content mime_type contact_id).1 = false ∧
    Event.log ("Failed to upload file: " ++ toString r.status_code) ∈
      (upload_file_to_hubspot env file_name file_content mime_type contact_id).2 ∧
    Event.log ("Response: " ++ r.text) ∈
      (upload_file_to_hubspot env file_name file_content mime_type contact_id).2 ∧
    countEngagements
      (upload_file_to_hubspot env file_name file_content mime_type contact_id).2 = 0 := by
  simp [upload_file_to_hubspot, hpost, hstatus, countEngagements, Event.isEngagementCall]

/-- Witness for C9: the upload endpoint answers HTTP 500. -/
theorem upload_non200_fails_with_status_and_body_witness :
    (envUpload500.postUpload
        (mk_upload_request "report" [1, 2, 3] "application/vnd.google-apps.spreadsheet") =
      .ok { status_code := 500, text := "boom", objects := none } ∧
     ({ status_code := 500, text := "boom", objects := none } : HttpResponse).status_code ≠ 200) ∧
    ((upload_file_to_hubspot envUpload500 "report" [1, 2, 3]
        "application/vnd.google-apps.spreadsheet" "101").1 = false ∧
     Event.log ("Failed to upload file: " ++
         toString ({ status_code := 500, text := "boom", objects := none } : HttpResponse).status_code) ∈
       (upload_file_to_hubspot envUpload500 "report" [1, 2, 3]
         "application/vnd.google-apps.spreadsheet" "101").2 ∧
     Event.log ("Response: " ++
         ({ status_code := 500, text := "boom", objects := none } : HttpResponse).text) ∈
       (upload_file_to_hubspot envUpload500 "report" [1, 2, 3]
         "application/vnd.google-apps.spreadsheet" "101").2 ∧
     countEngagements
       (upload_file_to_hubspot envUpload500 "report" [1, 2, 3]
         "application/vnd.google-apps.spreadsheet" "101").2 = 0) :=
  ⟨⟨rfl, by decide⟩,
   upload_non200_fails_with_status_and_body envUpload500 "report" [1, 2, 3]
     "application/vnd.google-apps.spreadsheet" "101"
     { status_code := 500, text := "boom", objects := none } rfl (by decide)⟩

/-- Outcome of the upload step alone (lines 184–217): the uploaded file's id
when the POST succeeded with HTTP 200 and the response body yielded a
non-empty `objects` list, `none` on a transport error, a non-200 status, or a
body whose parsing raises. -/
def upload_step_file_id (env : Env) (file_name : String) (file_content : Bytes)
    (mime_type : String) : Option String :=
  match env.postUpload (mk_upload_request file_name file_content mime_type) with
  | .error _ => none
  | .ok r =>
    if r.status_code = 200 then
      match r.objects with
      | some (fid :: _) => some fid
      | _ => none
    else none

/-- Outcome of the engagement step alone (lines 219–249): `true` iff the POST
succeeded with HTTP 200. -/
def engagement_step_ok (env : Env) (file_name contact_id file_id : String) : Bool :=
  match env.postEngagement (mk_engagement_request env file_name contact_id file_id) with
  | .error _ => false
  | .ok er => er.status_code == 200

/-- C4: the upload-plus-engagement composition never raises past its boundary
(it is a total `Bool`-valued function); it returns `True` exactly when both
the upload step and the engagement step succeeded, hence `False` on any
failure in either step, and whenever it returns `False` a log line recording
the cause is in its trace. -/
theorem attach_false_on_any_failure (env : Env) (file_name : String)
    (file_content : Bytes) (mime_type contact_id : String) :
    ((upload_file_to_hubspot env file_name file_content mime_type contact_id).1 = true ↔
      ∃ fid, upload_step_file_id env file_name file_content mime_type = some fid ∧
        engagement_step_ok env file_name contact_id fid = true) ∧
    ((upload_file_to_hubspot env file_name file_content mime_type contact_id).1 = false →
      ∃ m, Event.log m ∈
        (upload_file_to_hubspot env file_name file_content mime_type contact_id).2) := by
  rcases hpu : env.postUpload (mk_upload_request file_name file_content mime_type) with e | r
  · simp [upload_file_to_hubspot, upload_step_file_id, hpu]
  · by_cases hs : r.status_code = 200
    · rcases hobj : r.objects with _ | ids
      · simp [upload_file_to_hubspot, upload_step_file_id, hpu, hs, hobj]
      · cases ids with
        | nil => simp [upload_file_to_hubspot, upload_step_file_id, hpu, hs, hobj]
        | cons fid rest =>
          rcases hpe : env.postEngagement
              (mk_engagement_request env file_name contact_id fid) with e2 | er
          · simp [upload_file_to_hubspot, upload_step_file_id, engagement_step_ok,
                  hpu, hs, hobj, hpe]
          · by_cases hes : er.status_code = 200
            · simp [upload_file_to_hubspot, upload_step_file_id, engagement_step_ok,
                    hpu, hs, hobj, hpe, hes]
            · simp [upload_file_to_hubspot, upload_step_file_id, engagement_step_ok,
                    hpu, hs, hobj, hpe, hes]
    · simp [upload_file_to_hubspot, upload_step_file_id, hpu, hs]

/-- Witness for C4: with the upload endpoint answering HTTP 500 the
composition returns `False` and logs the cause. -/
theorem attach_false_on_any_failure_witness :
    ((upload_file_to_hubspot envUpload500 "report" [1, 2, 3] "text/plain" "101").1 = true ↔
      ∃ fid, upload_step_file_id envUpload500 "report" [1, 2, 3] "text/plain" = some fid ∧
        engagement_step_ok envUpload500 "report" "101" fid = true) ∧
    ((upload_file_to_hubspot envUpload500 "report" [1, 2, 3] "text/plain" "101").1 = false →
      ∃ m, Event.log m ∈
        (upload_file_to_hubspot envUpload500 "report" [1, 2, 3] "text/plain" "101").2) :=
  attach_false_on_any_failure envUpload500 "report" [1, 2, 3] "text/plain" "101"

/-- C5: a file whose sharing list yields zero email addresses contributes zero
upload calls and zero engagement calls, its unit reports failure, and in the
whole run every other file's outcome is exactly its own independent
`process_file` result. -/
theorem no_emails_no_uploads (env : Env) (file : DriveFile) (perms : List Permission)
    (hp : env.listPermissions file.id = .ok perms)
    (he : extract_emails perms = []) :
    (process_file env file).1 = false ∧
    countUploads (process_file env file).2 = 0 ∧
    countEngagements (process_file env file).2 = 0 ∧
    (∀ cp tok fid pre post,
      env.credentials_path = some cp → env.hubspot_token = some tok →
      env.acquireCredentials = .ok () → env.folder_id = some fid →
      env.listFiles fid = .ok (pre ++ file :: post) →
      (main_run env).1 = .ok
        ((pre.map fun f => (process_file env f).1) ++
          false :: (post.map fun f => (process_file env f).1))) := by
  have key : (process_file env file).1 = false ∧
      countUploads (process_file env file).2 = 0 ∧
      countEngagements (process_file env file).2 = 0 := by
    unfold process_file
    rcases hgc : get_file_content env file.id file.mimeType with ⟨c, tr0⟩
    have hno := get_file_content_no_hubspot_calls env file.id file.mimeType
    rw [hgc] at hno
    have hu : List.countP Event.isUploadCall tr0 = 0 := hno.1
    have hev : List.countP Event.isEngagementCall tr0 = 0 := hno.2
    rcases c with _ | content
    · simp [countUploads, countEngagements, List.countP_append, hu, hev,
            Event.isUploadCall, Event.isEngagementCall]
    · by_cases hc : content = []
      · simp [hc, countUploads, countEngagements, List.countP_append, hu, hev,
              Event.isUploadCall, Event.isEngagementCall]
      · simp [hc, hp, he, countUploads, countEngagements, List.countP_append, hu, hev,
              Event.isUploadCall, Event.isEngagementCall]
  refine ⟨key.1, key.2.1, key.2.2, ?_⟩
  intro cp tok fid pre post h1 h2 h3 h4 h5
  rw [main_run_ok env cp tok fid (pre ++ file :: post) h1 h2 h3 h4 h5]
  simp [key.1]

/-- Witness for C5 at the concrete environment `envNoEmails`. -/
theorem no_emails_no_uploads_witness :
    (envNoEmails.listPermissions testFile.id = .ok [{ emailAddress := none }] ∧
     extract_emails [{ emailAddress := none }] = []) ∧
    ((process_file envNoEmails testFile).1 = false ∧
     countUploads (process_file envNoEmails testFile).2 = 0 ∧
     countEngagements (process_file envNoEmails testFile).2 = 0 ∧
     (∀ cp tok fid pre post,
       envNoEmails.credentials_path = some cp → envNoEmails.hubspot_token = some tok →
       envNoEmails.acquireCredentials = .ok () → envNoEmails.folder_id = some fid →
       envNoEmails.listFiles fid = .ok (pre ++ testFile :: post) →
       (main_run envNoEmails).1 = .ok
         ((pre.map fun f => (process_file envNoEmails f).1) ++
           false :: (post.map fun f => (process_file envNoEmails f).1)))) :=
  ⟨⟨rfl, rfl⟩, no_emails_no_uploads envNoEmails testFile [{ emailAddress := none }] rfl rfl⟩

/-- C6: an email for which contact resolution finds no match produces no
upload call and no engagement call, and the sibling emails of the same file
are still attempted: the per-file email loop decomposes around it, processing
every other email exactly as it would on its own. -/
theorem unresolved_email_skipped_siblings_attempted (env : Env) (file : DriveFile)
    (content : Bytes) (email : String) (l1 l2 : List String)
    (h : env.searchContacts (contact_filter email) = .ok []) :
    (resolve_contact env email).1 = .ok none ∧
    countUploads (process_email env file content email) = 0 ∧
    countEngagements (process_email env file content email) = 0 ∧
    (l1 ++ email :: l2).flatMap (process_email env file content) =
      l1.flatMap (process_email env file content) ++
        process_email env file content email ++
        l2.flatMap (process_email env file content) := by
  have hres : resolve_contact env email =
      (.ok none, [.call (.hsSearch (contact_filter email)),
                  .log ("No HubSpot contact found for email: " ++ email)]) := by
    simp [resolve_contact, h]
  refine ⟨by rw [hres], ?_, ?_, ?_⟩
  · unfold process_email
    rw [hres]
    simp [countUploads, Event.isUploadCall]
  · unfold process_email
    rw [hres]
    simp [countEngagements, Event.isEngagementCall]
  · simp [List.flatMap_append, List.append_assoc]

/-- Witness for C6 at the concrete environment `envNoContact`. -/
theorem unresolved_email_skipped_siblings_attempted_witness :
    envNoContact.searchContacts (contact_filter "b@x.com") = .ok [] ∧
    ((resolve_contact envNoContact "b@x.com").1 = .ok none ∧
     countUploads (process_email envNoContact testFile [1, 2, 3] "b@x.com") = 0 ∧
     countEngagements (process_email envNoContact testFile [1, 2, 3] "b@x.com") = 0 ∧
     (["a@x.com"] ++ "b@x.com" :: ["c@x.com"]).flatMap
         (process_email envNoContact testFile [1, 2, 3]) =
       (["a@x.com"] : List String).flatMap (process_email envNoContact testFile [1, 2, 3]) ++
         process_email envNoContact testFile [1, 2, 3] "b@x.com" ++
         (["c@x.com"] : List String).flatMap (process_email envNoContact testFile [1, 2, 3])) :=
  ⟨rfl, unresolved_email_skipped_siblings_attempted envNoContact testFile [1, 2, 3]
    "b@x.com" ["a@x.com"] ["c@x.com"] rfl⟩

/-- C8: every upload call issued carries exactly the multipart form built by
the code: the file's name and bytes, content-type `application/pdf` when the
original mimeType is a native-editor type and the original mimeType
otherwise, the fixed folder path `/imported-files`, private access, and
duplicate validation disabled. -/
theorem upload_request_shape (env : Env) (file_name : String) (file_content : Bytes)
    (mime_type contact_id : String) (req : UploadRequest)
    (h : Event.call (.hsUpload req) ∈
      (upload_file_to_hubspot env file_name file_content mime_type contact_id).2) :
    req = mk_upload_request file_name file_content mime_type ∧
    req.fileName = file_name ∧
    req.content = file_content ∧
    req.folderPath = "/imported-files" ∧
    req.options.access = "PRIVATE" ∧
    req.options.duplicateValidationStrategy = "NONE" ∧
    (mime_type ∈ native_editor_types → req.contentType = "application/pdf") ∧
    (mime_type ∉ native_editor_types → req.contentType = mime_type) := by
  have hreq : req = mk_upload_request file_name file_content mime_type := by
    simp only [upload_file_to_hubspot] at h
    rcases hpu : env.postUpload (mk_upload_request file_name file_content mime_type)
        with e | r <;> rw [hpu] at h
    · simpa using h
    · repeat' split at h
      all_goals simpa using h
  subst hreq
  have hl := lookup_export_formats mime_type
  refine ⟨rfl, rfl, rfl, rfl, rfl, rfl, ?_, ?_⟩
  · intro hm
    simp [mk_upload_request, hl, hm]
  · intro hm
    simp [mk_upload_request, hl, hm]

/-- Witness for C8 at the healthy environment `baseEnv`. -/
theorem upload_request_shape_witness :
    Event.call (.hsUpload (mk_upload_request "report" [1, 2, 3]
        "application/vnd.google-apps.spreadsheet")) ∈
      (upload_file_to_hubspot baseEnv "report" [1, 2, 3]
        "application/vnd.google-apps.spreadsheet" "101").2 ∧
    (mk_upload_request "report" [1, 2, 3] "application/vnd.google-apps.spreadsheet" =
        mk_upload_request "report" [1, 2, 3] "application/vnd.google-apps.spreadsheet" ∧
     (mk_upload_request "report" [1, 2, 3]
        "application/vnd.google-apps.spreadsheet").fileName = "report" ∧
     (mk_upload_request "report" [1, 2, 3]
        "application/vnd.google-apps.spreadsheet").content = [1, 2, 3] ∧
     (mk_upload_request "report" [1, 2, 3]
        "application/vnd.google-apps.spreadsheet").folderPath = "/imported-files" ∧
     (mk_upload_request "report" [1, 2, 3]
        "application/vnd.google-apps.spreadsheet").options.access = "PRIVATE" ∧
     (mk_upload_request "report" [1, 2, 3]
        "application/vnd.google-apps.spreadsheet").options.duplicateValidationStrategy =
       "NONE" ∧
     ("application/vnd.google-apps.spreadsheet" ∈ native_editor_types →
       (mk_upload_request "report" [1, 2, 3]
         "application/vnd.google-apps.spreadsheet").contentType = "application/pdf") ∧
     ("application/vnd.google-apps.spreadsheet" ∉ native_editor_types →
       (mk_upload_request "report" [1, 2, 3]
         "application/vnd.google-apps.spreadsheet").contentType =
         "application/vnd.google-apps.spreadsheet")) :=
  ⟨by decide,
   upload_request_shape baseEnv "report" [1, 2, 3]
     "application/vnd.google-apps.spreadsheet" "101"
     (mk_upload_request "report" [1, 2, 3] "application/vnd.google-apps.spreadsheet")
     (by decide)⟩

/-- C10 (implicit): whenever content download succeeds with non-empty bytes
and the extracted email list is non-empty, `process_file` reports success
(`True`) no matter how contact resolution, uploads, or engagements fare. -/
theorem file_reported_success_regardless (env : Env) (file : DriveFile)
    (content : Bytes) (perms : List Permission)
    (hdl : (get_file_content env file.id file.mimeType).1 = some content)
    (hc : content ≠ [])
    (hp : env.listPermissions file.id = .ok perms)
    (he : extract_emails perms ≠ []) :
    (process_file env file).1 = true := by
  unfold process_file
  rcases hgc : get_file_content env file.id file.mimeType with ⟨c, tr0⟩
  rw [hgc] at hdl
  simp only [] at hdl
  subst hdl
  simp [hc, hp, he]

/-- Witness for C10 at `envNoContact`: every recipient fails to resolve, yet
the file's unit still reports success. -/
theorem file_reported_success_regardless_witness :
    ((get_file_content envNoContact testFile.id testFile.mimeType).1 = some [1, 2, 3] ∧
     ([1, 2, 3] : Bytes) ≠ [] ∧
     envNoContact.listPermissions testFile.id = .ok [{ emailAddress := some "a@x.com" }] ∧
     extract_emails [{ emailAddress := some "a@x.com" }] ≠ []) ∧
    (process_file envNoContact testFile).1 = true :=
  ⟨⟨rfl, by decide, rfl, by decide⟩,
   file_reported_success_regardless envNoContact testFile [1, 2, 3]
     [{ emailAddress := some "a@x.com" }] rfl (by decide) rfl (by decide)⟩

end GDriveHub
